import Mathlib

/-!
Verification development for the MoodDecode NLP API (`code.py`).

The service has three POST handlers (`analyze_mood`, `detect_crisis`,
`summarize_text`), each of which builds a two-message chat prompt from the
input text, performs one outbound call to the Groq chat-completion endpoint
via `call_groq_api`, extracts `response["choices"][0]["message"]["content"]`,
parses that string with `json.loads`, and builds a pydantic response model
from fixed keys of the parsed object.  Every exception raised inside a
handler's `try` block is caught by a blanket `except Exception` and re-raised
as a 500 `HTTPException` with a handler-specific detail message.

The embedding below models:
  * JSON values (`Json`) with numbers as rationals;
  * Python's `json.loads` restricted to the JSON constructs this service
    exchanges (objects, arrays, strings with basic escapes, decimal numbers
    without exponent notation, `true`/`false`/`null`);
  * Python `dict`/`list` subscription (`pyGetKey`, `pyGetIdx`) with the
    `KeyError`/`IndexError`/`TypeError` failure modes as opaque messages;
  * pydantic construction of the three response models, with a lax-coercion
    model (`coerceStr`, `coerceFloat`, `coerceBool`);
  * the network as an oracle (`NetResult`) giving the single outbound call's
    outcome: an `httpx.HTTPError`, a 2xx body that is not JSON, or a body;
  * each handler as a pure function from the input text and the network
    oracle to the list of outbound requests issued plus an
    `Except`-style outcome (`Except.error` models a raised `HTTPException`).
-/

namespace MoodDecode

/-- JSON values as produced by Python's `json.loads`: objects are key-value
lists (keys are unique in every reply this service handles, so first-match
lookup coincides with `dict` lookup), numbers are modelled as rationals. -/
inductive Json where
  | null : Json
  | bool : Bool → Json
  | num : ℚ → Json
  | str : String → Json
  | arr : List Json → Json
  | obj : List (String × Json) → Json

/-- First-match association lookup, the model of `dict.__getitem__` hits. -/
def lookupKey : List (String × Json) → String → Option Json
  | [], _ => none
  | (k, v) :: rest, key => if k = key then some v else lookupKey rest key

/-- Skip JSON whitespace. -/
def skipWs : List Char → List Char
  | c :: cs => if c = ' ' ∨ c = '\n' ∨ c = '\t' ∨ c = '\r' then skipWs cs else c :: cs
  | [] => []

/-- Scan a JSON string body up to the closing quote, handling the escapes
this service's payloads can contain. -/
def scanStr : List Char → List Char → Option (List Char × List Char)
  | _, [] => none
  | acc, c :: cs =>
    if c = '"' then some (acc.reverse, cs)
    else if c = '\\' then
      match cs with
      | [] => none
      | e :: cs2 =>
        if e = '"' ∨ e = '\\' ∨ e = '/' then scanStr (e :: acc) cs2
        else if e = 'n' then scanStr ('\n' :: acc) cs2
        else if e = 't' then scanStr ('\t' :: acc) cs2
        else none
    else scanStr (c :: acc) cs

/-- Decimal digit run to a natural number. -/
def digitsToNat (ds : List Char) : Nat :=
  ds.foldl (fun n c => 10 * n + (c.toNat - '0'.toNat)) 0

/-- Parse a JSON number (optional minus, digits, optional fraction; this
service's payloads do not use exponent notation, which is not modelled).
The value `i.f` with `k` fraction digits is the rational
`(i * 10 ^ k + f) / 10 ^ k`. -/
def parseNumber (cs : List Char) : Option (ℚ × List Char) :=
  let p := match cs with
    | c :: rest => if c = '-' then (true, rest) else (false, cs)
    | [] => (false, cs)
  let neg := p.1
  let cs1 := p.2
  let ip := cs1.span Char.isDigit
  if ip.1 = [] then none else
  match ip.2 with
  | c :: rest =>
    if c = '.' then
      let fp := rest.span Char.isDigit
      if fp.1 = [] then none
      else
        let n : Nat := digitsToNat ip.1 * 10 ^ fp.1.length + digitsToNat fp.1
        let num : Int := if neg then -(n : Int) else (n : Int)
        some (mkRat num (10 ^ fp.1.length), fp.2)
    else
      let num : Int := if neg then -(digitsToNat ip.1 : Int) else (digitsToNat ip.1 : Int)
      some (mkRat num 1, ip.2)
  | [] =>
    let num : Int := if neg then -(digitsToNat ip.1 : Int) else (digitsToNat ip.1 : Int)
    some (mkRat num 1, [])

mutual

/-- Parse one JSON value (fuel-indexed recursive descent). -/
def parseVal : Nat → List Char → Option (Json × List Char)
  | 0, _ => none
  | fuel + 1, cs =>
    match skipWs cs with
    | [] => none
    | c :: rest =>
      if c = '"' then
        match scanStr [] rest with
        | some (chars, cs2) => some (.str ⟨chars⟩, cs2)
        | none => none
      else if c = '\x7b' then
        match skipWs rest with
        | c2 :: rest2 =>
          if c2 = '\x7d' then some (.obj [], rest2)
          else parseMembers fuel [] (c2 :: rest2)
        | [] => none
      else if c = '[' then
        match skipWs rest with
        | c2 :: rest2 =>
          if c2 = ']' then some (.arr [], rest2)
          else parseElems fuel [] (c2 :: rest2)
        | [] => none
      else if c = 't' then
        if rest.take 3 = ['r', 'u', 'e'] then some (.bool true, rest.drop 3) else none
      else if c = 'f' then
        if rest.take 4 = ['a', 'l', 's', 'e'] then some (.bool false, rest.drop 4) else none
      else if c = 'n' then
        if rest.take 3 = ['u', 'l', 'l'] then some (.null, rest.drop 3) else none
      else
        match parseNumber (c :: rest) with
        | some (q, cs2) => some (.num q, cs2)
        | none => none

/-- Parse the members of a JSON object after its opening brace. -/
def parseMembers : Nat → List (String × Json) → List Char → Option (Json × List Char)
  | 0, _, _ => none
  | fuel + 1, acc, cs =>
    match skipWs cs with
    | c :: rest =>
      if c = '"' then
        match scanStr [] rest with
        | some (kchars, cs2) =>
          match skipWs cs2 with
          | c2 :: rest2 =>
            if c2 = ':' then
              match parseVal fuel rest2 with
              | some (v, cs3) =>
                match skipWs cs3 with
                | c3 :: rest3 =>
                  if c3 = ',' then parseMembers fuel (acc ++ [(⟨kchars⟩, v)]) rest3
                  else if c3 = '\x7d' then some (.obj (acc ++ [(⟨kchars⟩, v)]), rest3)
                  else none
                | [] => none
              | none => none
            else none
          | [] => none
        | none => none
      else none
    | [] => none

/-- Parse the elements of a JSON array after its opening bracket. -/
def parseElems : Nat → List Json → List Char → Option (Json × List Char)
  | 0, _, _ => none
  | fuel + 1, acc, cs =>
    match parseVal fuel cs with
    | some (v, cs2) =>
      match skipWs cs2 with
      | c :: rest =>
        if c = ',' then parseElems fuel (acc ++ [v]) rest
        else if c = ']' then some (.arr (acc ++ [v]), rest)
        else none
      | [] => none
    | none => none

end

/-- Model of Python's `json.loads` on a string: parse one value and require
the remainder to be whitespace, else fail. -/
def parseJson (s : String) : Option Json :=
  match parseVal (2 * s.length + 2) s.toList with
  | some (j, rest) => if skipWs rest = [] then some j else none
  | none => none

/-- Exceptions the handlers can observe: a FastAPI `HTTPException` with
status code and detail, or any other Python exception carrying its `str(e)`
rendering (`KeyError`, `IndexError`, `TypeError`, `json.JSONDecodeError`,
pydantic `ValidationError`).  The exact message text of the non-HTTP
exceptions is not load-bearing for the service and is modelled by
representative strings. -/
inductive Exn where
  | httpExc : Nat → String → Exn
  | pyErr : String → Exn

/-- Python's `str(e)`.  Starlette's `HTTPException.__str__` renders as
`f"\x7bstatus_code\x7d: \x7bdetail\x7d"`; other exceptions carry their
message. -/
def strOfExn : Exn → String
  | .httpExc code detail => toString code ++ ": " ++ detail
  | .pyErr msg => msg

/-- One chat message of the outbound payload. -/
structure Message where
  role : String
  content : String

/-- The outbound request `call_groq_api` builds and sends: URL, payload
fields, and the `httpx` timeout.  The `Authorization`/`Content-Type` headers
carry no information the claims mention and are not modelled. -/
structure GroqRequest where
  url : String
  model : String
  messages : List Message
  temperature : ℚ
  max_tokens : Nat
  response_format_type : String
  timeout : ℚ

/-- Network oracle: the outcome of the one outbound `client.post`.
`transportError` covers every `httpx.HTTPError`, including the
`raise_for_status` failure on a non-2xx reply; `badBodyJson` is a 2xx reply
whose body `response.json()` cannot decode (that exception is not an
`httpx.HTTPError` and escapes `call_groq_api` unwrapped); `ok` is a decoded
2xx body. -/
inductive NetResult where
  | transportError : String → NetResult
  | badBodyJson : String → NetResult
  | ok : Json → NetResult

def GROQ_BASE_URL : String := "https://api.groq.com/openai/v1/chat/completions"

/-- Model of `call_groq_api` (code.py lines 31-52): builds the payload
(model `llama-3.1-70b-versatile`, the given messages, temperature,
max_tokens, `response_format = \x7b"type": "json_object"\x7d`), posts it
with `timeout=30.0`, and on any `httpx.HTTPError` raises
`HTTPException(500, f"API call failed: \x7bstr(e)\x7d")`.  The Python
defaults `temperature=0.3, max_tokens=150` are never used (all three
callers pass both explicitly) and are omitted.  Returns the request it sent
together with the outcome. -/
def call_groq_api (messages : List Message) (temperature : ℚ) (max_tokens : Nat)
    (net : NetResult) : GroqRequest × Except Exn Json :=
  ({ url := GROQ_BASE_URL
     model := "llama-3.1-70b-versatile"
     messages := messages
     temperature := temperature
     max_tokens := max_tokens
     response_format_type := "json_object"
     timeout := 30 },
   match net with
   | .transportError msg => .error (.httpExc 500 ("API call failed: " ++ msg))
   | .badBodyJson msg => .error (.pyErr msg)
   | .ok body => .ok body)

/-- Request body model (`TextInput`): one required `text: str` field with no
validator, so any string — including the empty string — is accepted. -/
structure TextInput where
  text : String

/-- Response model of `/analyze_mood`; `confidence: float` is modelled as a
rational. -/
structure MoodResponse where
  emotion : String
  confidence : ℚ

/-- Response model of `/detect_crisis`. -/
structure CrisisResponse where
  crisis_detected : Bool
  severity : String
  confidence : ℚ

/-- Response model of `/summarize`. -/
structure SummaryResponse where
  summary : String

/-- Pydantic lax coercion to `str`: accepts strings. -/
def coerceStr : Json → Option String
  | .str s => some s
  | _ => none

/-- Pydantic lax coercion to `float`: accepts JSON numbers and numeric
strings. -/
def coerceFloat : Json → Option ℚ
  | .num q => some q
  | .str s =>
    match parseNumber s.toList with
    | some (q, []) => some q
    | _ => none
  | _ => none

/-- Pydantic lax coercion to `bool`: accepts booleans, 0/1 numbers, and
`"true"`/`"false"` strings. -/
def coerceBool : Json → Option Bool
  | .bool b => some b
  | .num q => if q = 0 then some false else if q = 1 then some true else none
  | .str s => if s = "true" then some true else if s = "false" then some false else none
  | _ => none

/-- `MoodResponse(emotion=e, confidence=c)`: pydantic validates both fields
or raises `ValidationError`. -/
def mkMoodResponse (e c : Json) : Except Exn MoodResponse :=
  match coerceStr e, coerceFloat c with
  | some s, some q => .ok ⟨s, q⟩
  | _, _ => .error (.pyErr "1 validation error for MoodResponse")

/-- `CrisisResponse(crisis_detected=d, severity=s, confidence=c)`. -/
def mkCrisisResponse (d s c : Json) : Except Exn CrisisResponse :=
  match coerceBool d, coerceStr s, coerceFloat c with
  | some b, some sv, some q => .ok ⟨b, sv, q⟩
  | _, _, _ => .error (.pyErr "1 validation error for CrisisResponse")

/-- `SummaryResponse(summary=s)`. -/
def mkSummaryResponse (s : Json) : Except Exn SummaryResponse :=
  match coerceStr s with
  | some sv => .ok ⟨sv⟩
  | none => .error (.pyErr "1 validation error for SummaryResponse")

/-- Python `d[k]` on a decoded JSON value: a hit on an object, `KeyError`
(whose `str` is the repr of the key) on an object without the key, and
`TypeError` on every non-object. -/
def pyGetKey (j : Json) (k : String) : Except Exn Json :=
  match j with
  | .obj kvs =>
    match lookupKey kvs k with
    | some v => .ok v
    | none => .error (.pyErr ("\x27" ++ k ++ "\x27"))
  | _ => .error (.pyErr "value is not subscriptable by a string key")

/-- Python `l[i]` on a decoded JSON value: a hit on an array with `i` in
range, `IndexError` out of range, and a `KeyError`/`TypeError` on
non-arrays. -/
def pyGetIdx (j : Json) (i : Nat) : Except Exn Json :=
  match j with
  | .arr xs =>
    match xs.get? i with
    | some v => .ok v
    | none => .error (.pyErr "list index out of range")
  | _ => .error (.pyErr "value is not subscriptable by an integer index")

/-- Python `json.loads(content)`: requires a string (else `TypeError`),
then decodes it (else `json.JSONDecodeError`). -/
def pyLoads : Json → Except Exn Json
  | .str s =>
    match parseJson s with
    | some j => .ok j
    | none => .error (.pyErr "Expecting value: line 1 column 1 (char 0)")
  | _ => .error (.pyErr "the JSON object must be str, bytes or bytearray")

/-- `response["choices"][0]["message"]["content"]` (code.py lines 93, 147,
192). -/
def contentOf (response : Json) : Except Exn Json :=
  match pyGetKey response "choices" with
  | .error e => .error e
  | .ok choices =>
    match pyGetIdx choices 0 with
    | .error e => .error e
    | .ok c0 =>
      match pyGetKey c0 "message" with
      | .error e => .error e
      | .ok msg => pyGetKey msg "content"

/-- System message of `/analyze_mood` (code.py line 87). -/
def moodSystem : String :=
  "You are a professional emotion analysis API. Always respond with valid JSON."

/-- Everything of the `mood_prompt` f-string (code.py lines 58-84) before
the interpolated `input_data.text`. -/
def moodPre : String :=
  "\n    You are an expert emotion analyst. Analyze the emotional tone of the given text and respond with valid JSON.\n\n    Text to analyze: \""

/-- Everything of the `mood_prompt` f-string after the interpolated
`input_data.text` (the doubled braces of the f-string render as single
braces). -/
def moodSuf : String :=
  "\"\n\n    Classify the emotion into one of these categories:\n    - happy\n    - sad\n    - angry\n    - fear\n    - surprise\n    - disgust\n    - neutral\n\n    Consider context, tone, and emotional intensity. Provide a confidence score (0.0-1.0).\n\n    Examples:\n    - \"I\x27m thrilled about my promotion!\" → happy (confidence: 0.9)\n    - \"This weather is okay I guess\" → neutral (confidence: 0.7)\n    - \"I\x27m devastated by this news\" → sad (confidence: 0.95)\n\n    Respond with JSON format:\n    \x7b\n        \"emotion\": \"emotion_name\",\n        \"confidence\": 0.0\n    \x7d\n    "

/-- The `mood_prompt` f-string: the raw input text embedded verbatim. -/
def mood_prompt (text : String) : String := moodPre ++ text ++ moodSuf

/-- The `messages` list of `/analyze_mood` (code.py lines 86-89). -/
def moodMessages (text : String) : List Message :=
  [⟨"system", moodSystem⟩, ⟨"user", mood_prompt text⟩]

/-- System message of `/detect_crisis` (code.py line 141). -/
def crisisSystem : String :=
  "You are a professional crisis detection API. Always respond with valid JSON. Err on the side of caution for safety."

/-- Everything of the `crisis_prompt` f-string (code.py lines 107-138)
before the interpolated `input_data.text`. -/
def crisisPre : String :=
  "\n    You are a mental health crisis detection system. Analyze the text for signs of mental health crisis, self-harm, or suicidal ideation.\n\n    Text to analyze: \""

/-- Everything of the `crisis_prompt` f-string after the interpolated
`input_data.text`. -/
def crisisSuf : String :=
  "\"\n\n    Crisis indicators include:\n    - Suicidal thoughts or plans\n    - Self-harm mentions\n    - Feeling hopeless or trapped\n    - Wanting to die or disappear\n    - Feeling like a burden\n    - Severe depression or despair\n    - Substance abuse with harmful intent\n\n    Severity levels:\n    - \"none\": No crisis indicators\n    - \"low\": Mild distress, general sadness\n    - \"moderate\": Concerning language, needs attention\n    - \"high\": Clear crisis indicators, immediate attention needed\n\n    Examples:\n    - \"I\x27m having a bad day\" → crisis_detected: false, severity: \"low\"\n    - \"I don\x27t want to be here anymore\" → crisis_detected: true, severity: \"high\"\n    - \"I\x27m feeling overwhelmed lately\" → crisis_detected: false, severity: \"moderate\"\n\n    Respond with JSON format:\n    \x7b\n        \"crisis_detected\": true/false,\n        \"severity\": \"severity_level\",\n        \"confidence\": 0.0\n    \x7d\n    "

/-- The `crisis_prompt` f-string. -/
def crisis_prompt (text : String) : String := crisisPre ++ text ++ crisisSuf

/-- The `messages` list of `/detect_crisis` (code.py lines 140-143). -/
def crisisMessages (text : String) : List Message :=
  [⟨"system", crisisSystem⟩, ⟨"user", crisis_prompt text⟩]

/-- System message of `/summarize` (code.py line 186). -/
def summarySystem : String :=
  "You are a professional text summarization API. Always respond with valid JSON."

/-- Everything of the `summary_prompt` f-string (code.py lines 162-183)
before the interpolated `input_data.text`. -/
def summaryPre : String :=
  "\n    You are a professional text summarization system. Create a concise, accurate summary of the given text.\n\n    Text to summarize: \""

/-- Everything of the `summary_prompt` f-string after the interpolated
`input_data.text`. -/
def summarySuf : String :=
  "\"\n\n    Guidelines:\n    - Keep key information and main points\n    - Maintain the original tone and context\n    - Make it 20-30% of original length\n    - Preserve important details\n    - Use clear, readable language\n\n    Examples:\n    - Long article about climate change → Brief summary covering main points about causes, effects, and solutions\n    - Personal story → Condensed version keeping emotional tone and key events\n    - Technical document → Simplified version with main concepts\n\n    Respond with JSON format:\n    \x7b\n        \"summary\": \"your_concise_summary_here\"\n    \x7d\n    "

/-- The `summary_prompt` f-string. -/
def summary_prompt (text : String) : String := summaryPre ++ text ++ summarySuf

/-- The `messages` list of `/summarize` (code.py lines 185-188). -/
def summaryMessages (text : String) : List Message :=
  [⟨"system", summarySystem⟩, ⟨"user", summary_prompt text⟩]

/-- `MoodResponse(emotion=result["emotion"], confidence=result["confidence"])`
(code.py lines 96-99) on the decoded content `result`; a `KeyError` or
validation error propagates. -/
def moodFrom (result : Json) : Except Exn MoodResponse :=
  match pyGetKey result "emotion" with
  | .error e => .error e
  | .ok ev =>
    match pyGetKey result "confidence" with
    | .error e => .error e
    | .ok cv => mkMoodResponse ev cv

/-- `result = json.loads(content)` (code.py line 94) followed by the
response construction. -/
def moodLoaded (content : Json) : Except Exn MoodResponse :=
  match pyLoads content with
  | .error e => .error e
  | .ok result => moodFrom result

/-- The body of `/analyze_mood`'s `try` block after the outbound call
succeeded (code.py lines 93-99): content extraction, `json.loads`, the two
key subscriptions, and `MoodResponse(...)` construction; any step's
exception propagates. -/
def moodBody (response : Json) : Except Exn MoodResponse :=
  match contentOf response with
  | .error e => .error e
  | .ok content => moodLoaded content

/-- `CrisisResponse(...)` on the decoded content (code.py lines 150-154). -/
def crisisFrom (result : Json) : Except Exn CrisisResponse :=
  match pyGetKey result "crisis_detected" with
  | .error e => .error e
  | .ok dv =>
    match pyGetKey result "severity" with
    | .error e => .error e
    | .ok sv =>
      match pyGetKey result "confidence" with
      | .error e => .error e
      | .ok cv => mkCrisisResponse dv sv cv

/-- `result = json.loads(content)` (code.py line 148) followed by the
response construction. -/
def crisisLoaded (content : Json) : Except Exn CrisisResponse :=
  match pyLoads content with
  | .error e => .error e
  | .ok result => crisisFrom result

/-- The body of `/detect_crisis`'s `try` block after the outbound call
succeeded (code.py lines 147-154). -/
def crisisBody (response : Json) : Except Exn CrisisResponse :=
  match contentOf response with
  | .error e => .error e
  | .ok content => crisisLoaded content

/-- `SummaryResponse(summary=result["summary"])` on the decoded content
(code.py lines 195-197). -/
def summaryFrom (result : Json) : Except Exn SummaryResponse :=
  match pyGetKey result "summary" with
  | .error e => .error e
  | .ok sv => mkSummaryResponse sv

/-- `result = json.loads(content)` (code.py line 193) followed by the
response construction. -/
def summaryLoaded (content : Json) : Except Exn SummaryResponse :=
  match pyLoads content with
  | .error e => .error e
  | .ok result => summaryFrom result

/-- The body of `/summarize`'s `try` block after the outbound call
succeeded (code.py lines 192-197). -/
def summaryBody (response : Json) : Except Exn SummaryResponse :=
  match contentOf response with
  | .error e => .error e
  | .ok content => summaryLoaded content

/-- `POST /analyze_mood` (code.py lines 54-101): builds the messages, makes
the single outbound call with `temperature=0.2, max_tokens=100`, runs the
parse/validate body, and wraps every exception of the `try` block — the
client's own `HTTPException` included — into
`HTTPException(500, f"Error analyzing mood: \x7bstr(e)\x7d")`.  The first
component is the list of outbound requests issued. -/
def analyze_mood (input_data : TextInput) (net : NetResult) :
    List GroqRequest × Except Exn MoodResponse :=
  let sent := call_groq_api (moodMessages input_data.text) (2/10) 100 net
  ([sent.1],
   Except.mapError (fun e => Exn.httpExc 500 ("Error analyzing mood: " ++ strOfExn e))
     (sent.2.bind moodBody))

/-- `POST /detect_crisis` (code.py lines 103-156): `temperature=0.1,
max_tokens=150`; wraps every exception into
`HTTPException(500, f"Error detecting crisis: \x7bstr(e)\x7d")`. -/
def detect_crisis (input_data : TextInput) (net : NetResult) :
    List GroqRequest × Except Exn CrisisResponse :=
  let sent := call_groq_api (crisisMessages input_data.text) (1/10) 150 net
  ([sent.1],
   Except.mapError (fun e => Exn.httpExc 500 ("Error detecting crisis: " ++ strOfExn e))
     (sent.2.bind crisisBody))

/-- `POST /summarize` (code.py lines 158-199): `temperature=0.4,
max_tokens=300`; wraps every exception into
`HTTPException(500, f"Error summarizing text: \x7bstr(e)\x7d")`. -/
def summarize_text (input_data : TextInput) (net : NetResult) :
    List GroqRequest × Except Exn SummaryResponse :=
  let sent := call_groq_api (summaryMessages input_data.text) (4/10) 300 net
  ([sent.1],
   Except.mapError (fun e => Exn.httpExc 500 ("Error summarizing text: " ++ strOfExn e))
     (sent.2.bind summaryBody))

/-- The fixed emotion label set named by the spec's data model (the
categories the mood prompt asks for). -/
def moodEmotions : List String :=
  ["happy", "sad", "angry", "fear", "surprise", "disgust", "neutral"]

/-- The fixed severity label set named by the spec's data model (the levels
the crisis prompt asks for). -/
def crisisSeverities : List String := ["none", "low", "moderate", "high"]

/-- Whether an outcome is a successfully returned record. -/
def isSuccess : Except Exn α → Bool
  | .ok _ => true
  | .error _ => false

/-- Spec-side field condition for `/analyze_mood`: the decoded content
yields both schema fields with values pydantic admits for their declared
types. -/
def moodFromSpec (result : Json) : Bool :=
  match pyGetKey result "emotion", pyGetKey result "confidence" with
  | .ok ev, .ok cv => (coerceStr ev).isSome && (coerceFloat cv).isSome
  | _, _ => false

/-- Spec-side condition for `/analyze_mood` given the extracted content:
the content decodes as JSON and the field condition holds. -/
def moodLoadedSpec (content : Json) : Bool :=
  match pyLoads content with
  | .error _ => false
  | .ok result => moodFromSpec result

/-- Success condition of `/analyze_mood` in the spec's terms: the reply has
the chat-completion shape (`choices[0].message.content` reachable), the
content decodes as JSON, and the decoded value yields both schema fields
with values pydantic admits for their declared types. -/
def moodSuccessSpec (reply : Json) : Bool :=
  match contentOf reply with
  | .error _ => false
  | .ok content => moodLoadedSpec content

/-- Spec-side field condition for `/detect_crisis`. -/
def crisisFromSpec (result : Json) : Bool :=
  match pyGetKey result "crisis_detected", pyGetKey result "severity",
        pyGetKey result "confidence" with
  | .ok dv, .ok sv, .ok cv =>
    (coerceBool dv).isSome && (coerceStr sv).isSome && (coerceFloat cv).isSome
  | _, _, _ => false

/-- Spec-side condition for `/detect_crisis` given the extracted content. -/
def crisisLoadedSpec (content : Json) : Bool :=
  match pyLoads content with
  | .error _ => false
  | .ok result => crisisFromSpec result

/-- Success condition of `/detect_crisis` in the spec's terms. -/
def crisisSuccessSpec (reply : Json) : Bool :=
  match contentOf reply with
  | .error _ => false
  | .ok content => crisisLoadedSpec content

/-- Spec-side field condition for `/summarize`. -/
def summaryFromSpec (result : Json) : Bool :=
  match pyGetKey result "summary" with
  | .ok sv => (coerceStr sv).isSome
  | .error _ => false

/-- Spec-side condition for `/summarize` given the extracted content. -/
def summaryLoadedSpec (content : Json) : Bool :=
  match pyLoads content with
  | .error _ => false
  | .ok result => summaryFromSpec result

/-- Success condition of `/summarize` in the spec's terms. -/
def summarySuccessSpec (reply : Json) : Bool :=
  match contentOf reply with
  | .error _ => false
  | .ok content => summaryLoadedSpec content

/-- The claim C4 success condition exactly as the claim states it for
`/analyze_mood`: chat-completion shape, content decodes as JSON, and the
JSON contains every schema field — with no demand on the field values'
types. -/
def moodFieldsPresent (reply : Json) : Bool :=
  match contentOf reply with
  | .error _ => false
  | .ok content =>
    match pyLoads content with
    | .error _ => false
    | .ok result =>
      match pyGetKey result "emotion", pyGetKey result "confidence" with
      | .ok _, .ok _ => true
      | _, _ => false

/-- An outcome is either a record or a 500-status service error (never a
bare Python exception, never another status code). -/
def onlyServiceError : Except Exn α → Prop
  | .ok _ => True
  | .error (.httpExc code _) => code = 500
  | .error (.pyErr _) => False

/-- Every error outcome is a 500 whose detail is the given handler tag
followed by some rest, and is never the completion client's bare
`"API call failed: ..."` detail. -/
def errWrapped (tag : String) : Except Exn α → Prop
  | .ok _ => True
  | .error (.httpExc code detail) =>
    code = 500 ∧ ∃ rest, detail = tag ++ rest ∧ ∀ m, detail ≠ "API call failed: " ++ m
  | .error (.pyErr _) => False

/-- Pass-through property for a `/analyze_mood` success: every returned
field is the (coerced) value found under the corresponding key of the JSON
decoded from the reply's content. -/
def moodPass (reply : Json) (r : MoodResponse) : Prop :=
  ∃ content result ev cv,
    contentOf reply = .ok content ∧ pyLoads content = .ok result ∧
    pyGetKey result "emotion" = .ok ev ∧ coerceStr ev = some r.emotion ∧
    pyGetKey result "confidence" = .ok cv ∧ coerceFloat cv = some r.confidence

/-- Pass-through property for a `/detect_crisis` success. -/
def crisisPass (reply : Json) (r : CrisisResponse) : Prop :=
  ∃ content result dv sv cv,
    contentOf reply = .ok content ∧ pyLoads content = .ok result ∧
    pyGetKey result "crisis_detected" = .ok dv ∧ coerceBool dv = some r.crisis_detected ∧
    pyGetKey result "severity" = .ok sv ∧ coerceStr sv = some r.severity ∧
    pyGetKey result "confidence" = .ok cv ∧ coerceFloat cv = some r.confidence

/-- Pass-through property for a `/summarize` success. -/
def summaryPass (reply : Json) (r : SummaryResponse) : Prop :=
  ∃ content result sv,
    contentOf reply = .ok content ∧ pyLoads content = .ok result ∧
    pyGetKey result "summary" = .ok sv ∧ coerceStr sv = some r.summary

/-- A well-formed chat-completion reply whose content carries the given
string. -/
def replyWith (content : String) : Json :=
  .obj [("choices", .arr [.obj [("message", .obj [("content", .str content)])]])]

lemma isSuccess_mapError (f : Exn → Exn) (x : Except Exn α) :
    isSuccess (Except.mapError f x) = isSuccess x := by
  cases x <;> rfl

lemma ok_of_mapError {f : Exn → Exn} {x : Except Exn α} {r : α}
    (h : Except.mapError f x = .ok r) : x = .ok r := by
  cases x with
  | ok a => exact h
  | error e => exact Except.noConfusion h

lemma onlyServiceError_wrap (g : Exn → String) (x : Except Exn α) :
    onlyServiceError (Except.mapError (fun e => Exn.httpExc 500 (g e)) x) := by
  cases x with
  | ok a => trivial
  | error e => exact rfl

lemma data_append (s t : String) : (s ++ t).data = s.data ++ t.data := by
  cases s
  cases t
  rfl

lemma append_ne_of_head {a b : String} {c₁ c₂ : Char}
    (h₁ : a.data.head? = some c₁) (h₂ : b.data.head? = some c₂) (hne : c₁ ≠ c₂)
    (r m : String) : a ++ r ≠ b ++ m := by
  intro h
  apply hne
  have hd := congrArg String.data h
  rw [data_append, data_append] at hd
  cases ha : a.data with
  | nil => rw [ha] at h₁; exact Option.noConfusion h₁
  | cons x xs =>
    cases hb : b.data with
    | nil => rw [hb] at h₂; exact Option.noConfusion h₂
    | cons y ys =>
      rw [ha] at h₁
      rw [hb] at h₂
      rw [ha, hb] at hd
      simp only [List.cons_append, List.cons.injEq] at hd
      simp only [List.head?_cons, Option.some.injEq] at h₁ h₂
      rw [← h₁, ← h₂]
      exact hd.1

lemma errWrapped_wrap (tag : String) (c : Char) (hc : tag.data.head? = some c)
    (hne : c ≠ 'A') (x : Except Exn α) :
    errWrapped tag (Except.mapError (fun e => Exn.httpExc 500 (tag ++ strOfExn e)) x) := by
  cases x with
  | ok a => trivial
  | error e =>
    exact ⟨rfl, strOfExn e, rfl,
      fun m => append_ne_of_head hc (rfl : "API call failed: ".data.head? = some 'A') hne _ m⟩

lemma isSuccess_mkMoodResponse (e c : Json) :
    isSuccess (mkMoodResponse e c) = ((coerceStr e).isSome && (coerceFloat c).isSome) := by
  unfold mkMoodResponse
  cases coerceStr e <;> cases coerceFloat c <;> rfl

lemma isSuccess_mkCrisisResponse (d s c : Json) :
    isSuccess (mkCrisisResponse d s c) =
      ((coerceBool d).isSome && (coerceStr s).isSome && (coerceFloat c).isSome) := by
  unfold mkCrisisResponse
  cases coerceBool d <;> cases coerceStr s <;> cases coerceFloat c <;> rfl

lemma isSuccess_mkSummaryResponse (s : Json) :
    isSuccess (mkSummaryResponse s) = (coerceStr s).isSome := by
  unfold mkSummaryResponse
  cases coerceStr s <;> rfl

lemma isSuccess_moodFrom (result : Json) :
    isSuccess (moodFrom result) = moodFromSpec result := by
  unfold moodFrom moodFromSpec
  cases pyGetKey result "emotion" with
  | error e => rfl
  | ok ev =>
    cases pyGetKey result "confidence" with
    | error e => rfl
    | ok cv => exact isSuccess_mkMoodResponse ev cv

lemma isSuccess_moodLoaded (content : Json) :
    isSuccess (moodLoaded content) = moodLoadedSpec content := by
  unfold moodLoaded moodLoadedSpec
  cases pyLoads content with
  | error e => rfl
  | ok result => exact isSuccess_moodFrom result

lemma isSuccess_moodBody (reply : Json) :
    isSuccess (moodBody reply) = moodSuccessSpec reply := by
  unfold moodBody moodSuccessSpec
  cases contentOf reply with
  | error e => rfl
  | ok content => exact isSuccess_moodLoaded content

lemma isSuccess_crisisFrom (result : Json) :
    isSuccess (crisisFrom result) = crisisFromSpec result := by
  unfold crisisFrom crisisFromSpec
  cases pyGetKey result "crisis_detected" with
  | error e => rfl
  | ok dv =>
    cases pyGetKey result "severity" with
    | error e => rfl
    | ok sv =>
      cases pyGetKey result "confidence" with
      | error e => rfl
      | ok cv => exact isSuccess_mkCrisisResponse dv sv cv

lemma isSuccess_crisisLoaded (content : Json) :
    isSuccess (crisisLoaded content) = crisisLoadedSpec content := by
  unfold crisisLoaded crisisLoadedSpec
  cases pyLoads content with
  | error e => rfl
  | ok result => exact isSuccess_crisisFrom result

lemma isSuccess_crisisBody (reply : Json) :
    isSuccess (crisisBody reply) = crisisSuccessSpec reply := by
  unfold crisisBody crisisSuccessSpec
  cases contentOf reply with
  | error e => rfl
  | ok content => exact isSuccess_crisisLoaded content

lemma isSuccess_summaryFrom (result : Json) :
    isSuccess (summaryFrom result) = summaryFromSpec result := by
  unfold summaryFrom summaryFromSpec
  cases pyGetKey result "summary" with
  | error e => rfl
  | ok sv => exact isSuccess_mkSummaryResponse sv

lemma isSuccess_summaryLoaded (content : Json) :
    isSuccess (summaryLoaded content) = summaryLoadedSpec content := by
  unfold summaryLoaded summaryLoadedSpec
  cases pyLoads content with
  | error e => rfl
  | ok result => exact isSuccess_summaryFrom result

lemma isSuccess_summaryBody (reply : Json) :
    isSuccess (summaryBody reply) = summarySuccessSpec reply := by
  unfold summaryBody summarySuccessSpec
  cases contentOf reply with
  | error e => rfl
  | ok content => exact isSuccess_summaryLoaded content

lemma moodFrom_pass {result : Json} {r : MoodResponse} (h : moodFrom result = .ok r) :
    ∃ ev cv, pyGetKey result "emotion" = .ok ev ∧ coerceStr ev = some r.emotion ∧
      pyGetKey result "confidence" = .ok cv ∧ coerceFloat cv = some r.confidence := by
  unfold moodFrom at h
  cases he : pyGetKey result "emotion" with
  | error e => rw [he] at h; exact Except.noConfusion h
  | ok ev =>
    rw [he] at h
    cases hcv : pyGetKey result "confidence" with
    | error e => rw [hcv] at h; exact Except.noConfusion h
    | ok cv =>
      rw [hcv] at h
      replace h : mkMoodResponse ev cv = .ok r := h
      unfold mkMoodResponse at h
      cases hs : coerceStr ev with
      | none => rw [hs] at h; exact Except.noConfusion h
      | some s =>
        rw [hs] at h
        cases hf : coerceFloat cv with
        | none => rw [hf] at h; exact Except.noConfusion h
        | some q =>
          rw [hf] at h
          replace h : (Except.ok ⟨s, q⟩ : Except Exn MoodResponse) = .ok r := h
          injection h with h'
          subst h'
          exact ⟨ev, cv, rfl, hs, rfl, hf⟩

lemma moodBody_pass {reply : Json} {r : MoodResponse} (h : moodBody reply = .ok r) :
    moodPass reply r := by
  unfold moodBody at h
  cases hc : contentOf reply with
  | error e => rw [hc] at h; exact Except.noConfusion h
  | ok content =>
    rw [hc] at h
    replace h : moodLoaded content = .ok r := h
    unfold moodLoaded at h
    cases hl : pyLoads content with
    | error e => rw [hl] at h; exact Except.noConfusion h
    | ok result =>
      rw [hl] at h
      replace h : moodFrom result = .ok r := h
      obtain ⟨ev, cv, he, hs, hcv, hf⟩ := moodFrom_pass h
      exact ⟨content, result, ev, cv, hc, hl, he, hs, hcv, hf⟩

lemma crisisFrom_pass {result : Json} {r : CrisisResponse} (h : crisisFrom result = .ok r) :
    ∃ dv sv cv, pyGetKey result "crisis_detected" = .ok dv ∧
      coerceBool dv = some r.crisis_detected ∧
      pyGetKey result "severity" = .ok sv ∧ coerceStr sv = some r.severity ∧
      pyGetKey result "confidence" = .ok cv ∧ coerceFloat cv = some r.confidence := by
  unfold crisisFrom at h
  cases hd : pyGetKey result "crisis_detected" with
  | error e => rw [hd] at h; exact Except.noConfusion h
  | ok dv =>
    rw [hd] at h
    cases hsv : pyGetKey result "severity" with
    | error e => rw [hsv] at h; exact Except.noConfusion h
    | ok sv =>
      rw [hsv] at h
      cases hcv : pyGetKey result "confidence" with
      | error e => rw [hcv] at h; exact Except.noConfusion h
      | ok cv =>
        rw [hcv] at h
        replace h : mkCrisisResponse dv sv cv = .ok r := h
        unfold mkCrisisResponse at h
        cases hb : coerceBool dv with
        | none => rw [hb] at h; exact Except.noConfusion h
        | some b =>
          rw [hb] at h
          cases hs : coerceStr sv with
          | none => rw [hs] at h; exact Except.noConfusion h
          | some sl =>
            rw [hs] at h
            cases hf : coerceFloat cv with
            | none => rw [hf] at h; exact Except.noConfusion h
            | some q =>
              rw [hf] at h
              replace h : (Except.ok ⟨b, sl, q⟩ : Except Exn CrisisResponse) = .ok r := h
              injection h with h'
              subst h'
              exact ⟨dv, sv, cv, rfl, hb, rfl, hs, rfl, hf⟩

lemma crisisBody_pass {reply : Json} {r : CrisisResponse} (h : crisisBody reply = .ok r) :
    crisisPass reply r := by
  unfold crisisBody at h
  cases hc : contentOf reply with
  | error e => rw [hc] at h; exact Except.noConfusion h
  | ok content =>
    rw [hc] at h
    replace h : crisisLoaded content = .ok r := h
    unfold crisisLoaded at h
    cases hl : pyLoads content with
    | error e => rw [hl] at h; exact Except.noConfusion h
    | ok result =>
      rw [hl] at h
      replace h : crisisFrom result = .ok r := h
      obtain ⟨dv, sv, cv, hd, hb, hsv, hs, hcv, hf⟩ := crisisFrom_pass h
      exact ⟨content, result, dv, sv, cv, hc, hl, hd, hb, hsv, hs, hcv, hf⟩

lemma summaryFrom_pass {result : Json} {r : SummaryResponse} (h : summaryFrom result = .ok r) :
    ∃ sv, pyGetKey result "summary" = .ok sv ∧ coerceStr sv = some r.summary := by
  unfold summaryFrom at h
  cases hsv : pyGetKey result "summary" with
  | error e => rw [hsv] at h; exact Except.noConfusion h
  | ok sv =>
    rw [hsv] at h
    replace h : mkSummaryResponse sv = .ok r := h
    unfold mkSummaryResponse at h
    cases hs : coerceStr sv with
    | none => rw [hs] at h; exact Except.noConfusion h
    | some sl =>
      rw [hs] at h
      replace h : (Except.ok ⟨sl⟩ : Except Exn SummaryResponse) = .ok r := h
      injection h with h'
      subst h'
      exact ⟨sv, rfl, hs⟩

lemma summaryBody_pass {reply : Json} {r : SummaryResponse} (h : summaryBody reply = .ok r) :
    summaryPass reply r := by
  unfold summaryBody at h
  cases hc : contentOf reply with
  | error e => rw [hc] at h; exact Except.noConfusion h
  | ok content =>
    rw [hc] at h
    replace h : summaryLoaded content = .ok r := h
    unfold summaryLoaded at h
    cases hl : pyLoads content with
    | error e => rw [hl] at h; exact Except.noConfusion h
    | ok result =>
      rw [hl] at h
      replace h : summaryFrom result = .ok r := h
      obtain ⟨sv, hsv, hs⟩ := summaryFrom_pass h
      exact ⟨content, result, sv, hc, hl, hsv, hs⟩

/-- C1 counterexample: a provider reply whose content is
`{"emotion": "ecstatic", "confidence": 2}` is returned successfully by
`analyze_mood` with the emotion outside the fixed enumerated set and the
confidence outside `[0,1]`, refuting the claim that every successful value
satisfies both bounds regardless of the provider's reply. -/
theorem mood_enum_interval_not_enforced :
    (analyze_mood ⟨"hello"⟩
        (.ok (replyWith "\x7b\"emotion\": \"ecstatic\", \"confidence\": 2\x7d"))).2 =
      .ok ⟨"ecstatic", 2⟩ ∧
    moodEmotions.contains "ecstatic" = false ∧ ¬((0 : ℚ) ≤ 2 ∧ (2 : ℚ) ≤ 1) :=
  ⟨rfl, rfl, by norm_num⟩

/-- C1 amended: for every value returned successfully by `analyze_mood`, the
emotion and confidence fields are exactly the (pydantic-coerced) values found
under the `"emotion"` and `"confidence"` keys of the JSON parsed from the
provider's reply content; membership of the emotion in the enumerated set
and of the confidence in `[0,1]` is requested in the prompt but not enforced
by the service. -/
theorem mood_fields_are_provider_values (i : TextInput) (reply : Json) (r : MoodResponse)
    (h : (analyze_mood i (.ok reply)).2 = .ok r) : moodPass reply r :=
  moodBody_pass (ok_of_mapError h)

/-- Witness for the C1 amended theorem at a concrete reply. -/
theorem mood_fields_are_provider_values_witness :
    moodPass (replyWith "\x7b\"emotion\": \"sad\", \"confidence\": 0.7\x7d")
      ⟨"sad", mkRat 7 10⟩ :=
  mood_fields_are_provider_values ⟨"w"⟩ _ _ rfl

/-- C2 counterexample: a provider reply whose content is
`{"crisis_detected": true, "severity": "catastrophic", "confidence": 5}` is
returned successfully by `detect_crisis` with the severity outside the fixed
enumerated set and the confidence outside `[0,1]`, refuting the claim. -/
theorem crisis_enum_interval_not_enforced :
    (detect_crisis ⟨"hello"⟩
        (.ok (replyWith
          "\x7b\"crisis_detected\": true, \"severity\": \"catastrophic\", \"confidence\": 5\x7d"))).2 =
      .ok ⟨true, "catastrophic", 5⟩ ∧
    crisisSeverities.contains "catastrophic" = false ∧ ¬((0 : ℚ) ≤ 5 ∧ (5 : ℚ) ≤ 1) :=
  ⟨rfl, rfl, by norm_num⟩

/-- C2 amended: for every value returned successfully by `detect_crisis`,
`crisis_detected` is the boolean coerced from the reply's
`"crisis_detected"` value and the severity and confidence fields are exactly
the (pydantic-coerced) values under the corresponding keys; membership of
the severity in the enumerated set and of the confidence in `[0,1]` is
requested in the prompt but not enforced by the service. -/
theorem crisis_fields_are_provider_values (i : TextInput) (reply : Json) (r : CrisisResponse)
    (h : (detect_crisis i (.ok reply)).2 = .ok r) : crisisPass reply r :=
  crisisBody_pass (ok_of_mapError h)

/-- Witness for the C2 amended theorem at a concrete reply. -/
theorem crisis_fields_are_provider_values_witness :
    crisisPass
      (replyWith "\x7b\"crisis_detected\": true, \"severity\": \"high\", \"confidence\": 0.95\x7d")
      ⟨true, "high", mkRat 95 100⟩ :=
  crisis_fields_are_provider_values ⟨"w2"⟩ _ _ rfl

/-- C3: for every input to any of the three POST handlers and every network
outcome, each handler's result is either a typed record or a raised
`HTTPException` with status 500 — every failure (transport error, non-JSON
reply body, malformed content, missing field, validation error) collapses to
this single kind of service error, never a partial or differently-coded
result. -/
theorem all_failures_are_single_500_service_errors (i : TextInput) (net : NetResult) :
    onlyServiceError (analyze_mood i net).2 ∧ onlyServiceError (detect_crisis i net).2 ∧
      onlyServiceError (summarize_text i net).2 :=
  ⟨onlyServiceError_wrap _ _, onlyServiceError_wrap _ _, onlyServiceError_wrap _ _⟩

/-- C4 counterexample: a reply whose content
`{"emotion": "happy", "confidence": null}` has the chat-completion shape,
parses as JSON, and contains every field of the mood schema, yet
`analyze_mood` returns an error (pydantic rejects `null` for `float`),
refuting the claimed "if and only if" based on field presence alone. -/
theorem field_presence_does_not_imply_success :
    moodFieldsPresent (replyWith "\x7b\"emotion\": \"happy\", \"confidence\": null\x7d") = true ∧
      isSuccess (analyze_mood ⟨"x"⟩
        (.ok (replyWith "\x7b\"emotion\": \"happy\", \"confidence\": null\x7d"))).2 = false :=
  ⟨rfl, rfl⟩

/-- C4 amended: each endpoint returns a successfully typed record if and
only if the provider's reply has the chat-completion shape
(`choices[0].message.content` present and a string), the content parses as
JSON, and the parsed JSON yields every field of the task's schema with a
value pydantic admits for the field's declared type; in particular any reply
whose content is malformed JSON yields an error response. -/
theorem success_iff_wellformed_reply (i : TextInput) (reply : Json) :
    isSuccess (analyze_mood i (.ok reply)).2 = moodSuccessSpec reply ∧
      isSuccess (detect_crisis i (.ok reply)).2 = crisisSuccessSpec reply ∧
      isSuccess (summarize_text i (.ok reply)).2 = summarySuccessSpec reply := by
  refine ⟨?_, ?_, ?_⟩
  · rw [show (analyze_mood i (.ok reply)).2 =
        Except.mapError (fun e => Exn.httpExc 500 ("Error analyzing mood: " ++ strOfExn e))
          (moodBody reply) from rfl, isSuccess_mapError]
    exact isSuccess_moodBody reply
  · rw [show (detect_crisis i (.ok reply)).2 =
        Except.mapError (fun e => Exn.httpExc 500 ("Error detecting crisis: " ++ strOfExn e))
          (crisisBody reply) from rfl, isSuccess_mapError]
    exact isSuccess_crisisBody reply
  · rw [show (summarize_text i (.ok reply)).2 =
        Except.mapError (fun e => Exn.httpExc 500 ("Error summarizing text: " ++ strOfExn e))
          (summaryBody reply) from rfl, isSuccess_mapError]
    exact isSuccess_summaryBody reply

/-- C5: prompt construction is deterministic: each handler submits exactly
the two-element message list consisting of its fixed system message and the
fixed user-message template with the raw input text embedded verbatim
between a fixed preamble and a fixed tail, and equal input texts build
identical messages. -/
theorem prompts_are_fixed_templates :
    (∀ (i : TextInput) (net : NetResult),
        (analyze_mood i net).1.map GroqRequest.messages = [moodMessages i.text] ∧
        (detect_crisis i net).1.map GroqRequest.messages = [crisisMessages i.text] ∧
        (summarize_text i net).1.map GroqRequest.messages = [summaryMessages i.text]) ∧
    (∃ sys pre suf, ∀ t, moodMessages t = [⟨"system", sys⟩, ⟨"user", pre ++ t ++ suf⟩]) ∧
    (∃ sys pre suf, ∀ t, crisisMessages t = [⟨"system", sys⟩, ⟨"user", pre ++ t ++ suf⟩]) ∧
    (∃ sys pre suf, ∀ t, summaryMessages t = [⟨"system", sys⟩, ⟨"user", pre ++ t ++ suf⟩]) ∧
    (∀ t₁ t₂ : String, t₁ = t₂ →
        moodMessages t₁ = moodMessages t₂ ∧ crisisMessages t₁ = crisisMessages t₂ ∧
        summaryMessages t₁ = summaryMessages t₂) :=
  ⟨fun _ _ => ⟨rfl, rfl, rfl⟩,
   ⟨moodSystem, moodPre, moodSuf, fun _ => rfl⟩,
   ⟨crisisSystem, crisisPre, crisisSuf, fun _ => rfl⟩,
   ⟨summarySystem, summaryPre, summarySuf, fun _ => rfl⟩,
   fun _ _ h => h ▸ ⟨rfl, rfl, rfl⟩⟩

/-- Witness for C5: the determinism conjunct applied at the concrete input
text `"hello"`. -/
theorem prompts_are_fixed_templates_witness :
    moodMessages "hello" = moodMessages "hello" ∧
      crisisMessages "hello" = crisisMessages "hello" ∧
      summaryMessages "hello" = summaryMessages "hello" :=
  prompts_are_fixed_templates.2.2.2.2 "hello" "hello" rfl

/-- C6: every outbound request carries the bounded token count of its
handler (100 for mood, 150 for crisis, 300 for summary), the handler's
explicit temperature, the JSON-object response format, and the fixed 30.0
second timeout. -/
theorem outbound_requests_bounded (i : TextInput) (net : NetResult) :
    ((analyze_mood i net).1.map GroqRequest.max_tokens = [100] ∧
     (analyze_mood i net).1.map GroqRequest.temperature = [2/10] ∧
     (analyze_mood i net).1.map GroqRequest.response_format_type = ["json_object"] ∧
     (analyze_mood i net).1.map GroqRequest.timeout = [30]) ∧
    ((detect_crisis i net).1.map GroqRequest.max_tokens = [150] ∧
     (detect_crisis i net).1.map GroqRequest.temperature = [1/10] ∧
     (detect_crisis i net).1.map GroqRequest.response_format_type = ["json_object"] ∧
     (detect_crisis i net).1.map GroqRequest.timeout = [30]) ∧
    ((summarize_text i net).1.map GroqRequest.max_tokens = [300] ∧
     (summarize_text i net).1.map GroqRequest.temperature = [4/10] ∧
     (summarize_text i net).1.map GroqRequest.response_format_type = ["json_object"] ∧
     (summarize_text i net).1.map GroqRequest.timeout = [30]) :=
  ⟨⟨rfl, rfl, rfl, rfl⟩, ⟨rfl, rfl, rfl, rfl⟩, ⟨rfl, rfl, rfl, rfl⟩⟩

/-- C7: the empty input text is accepted by every POST endpoint: the request
body model admits it, each handler still issues its single outbound request,
and the empty string is embedded at the text position of the same fixed
template as any other input. -/
theorem empty_text_accepted_and_forwarded (net : NetResult) :
    ((analyze_mood ⟨""⟩ net).1.map GroqRequest.messages = [moodMessages ""] ∧
      moodMessages "" = [⟨"system", moodSystem⟩, ⟨"user", moodPre ++ "" ++ moodSuf⟩]) ∧
    ((detect_crisis ⟨""⟩ net).1.map GroqRequest.messages = [crisisMessages ""] ∧
      crisisMessages "" = [⟨"system", crisisSystem⟩, ⟨"user", crisisPre ++ "" ++ crisisSuf⟩]) ∧
    ((summarize_text ⟨""⟩ net).1.map GroqRequest.messages = [summaryMessages ""] ∧
      summaryMessages "" = [⟨"system", summarySystem⟩, ⟨"user", summaryPre ++ "" ++ summarySuf⟩]) :=
  ⟨⟨rfl, rfl⟩, ⟨rfl, rfl⟩, ⟨rfl, rfl⟩⟩

/-- C8: for every inbound request and every network outcome — transport
failure, undecodable body, and every reply shape alike — each handler issues
exactly one outbound call, so never a second (retry) call. -/
theorem single_outbound_call_per_request (i : TextInput) (net : NetResult) :
    (analyze_mood i net).1.length = 1 ∧ (detect_crisis i net).1.length = 1 ∧
      (summarize_text i net).1.length = 1 :=
  ⟨rfl, rfl, rfl⟩

/-- C9: the handlers pass provider-supplied field values through verbatim:
whenever a handler returns a record, each of its fields is exactly the
(pydantic-coerced) value found under the corresponding key of the JSON
parsed from the provider's reply content, with no validation, clamping, or
normalization applied. -/
theorem provider_values_passed_through (i : TextInput) (reply : Json) :
    (∀ r, (analyze_mood i (.ok reply)).2 = .ok r → moodPass reply r) ∧
      (∀ r, (detect_crisis i (.ok reply)).2 = .ok r → crisisPass reply r) ∧
      (∀ r, (summarize_text i (.ok reply)).2 = .ok r → summaryPass reply r) :=
  ⟨fun _ h => moodBody_pass (ok_of_mapError h),
   fun _ h => crisisBody_pass (ok_of_mapError h),
   fun _ h => summaryBody_pass (ok_of_mapError h)⟩

/-- Witness for C9 at concrete replies for all three endpoints. -/
theorem provider_values_passed_through_witness :
    moodPass (replyWith "\x7b\"emotion\": \"happy\", \"confidence\": 0.9\x7d")
        ⟨"happy", mkRat 9 10⟩ ∧
      crisisPass
        (replyWith "\x7b\"crisis_detected\": false, \"severity\": \"low\", \"confidence\": 0.3\x7d")
        ⟨false, "low", mkRat 3 10⟩ ∧
      summaryPass (replyWith "\x7b\"summary\": \"A short summary.\"\x7d") ⟨"A short summary."⟩ :=
  ⟨(provider_values_passed_through ⟨"a"⟩ _).1 _ rfl,
   (provider_values_passed_through ⟨"b"⟩ _).2.1 _ rfl,
   (provider_values_passed_through ⟨"c"⟩ _).2.2 _ rfl⟩

/-- C10: every error a handler returns is a 500 whose detail starts with the
handler-specific tag (`"Error analyzing mood: "`, `"Error detecting crisis: "`
or `"Error summarizing text: "`) and is never the completion client's bare
`"API call failed: ..."` detail — the client's `HTTPException` is itself
caught by the blanket handler and re-wrapped. -/
theorem errors_carry_handler_detail (i : TextInput) (net : NetResult) :
    errWrapped "Error analyzing mood: " (analyze_mood i net).2 ∧
      errWrapped "Error detecting crisis: " (detect_crisis i net).2 ∧
      errWrapped "Error summarizing text: " (summarize_text i net).2 :=
  ⟨errWrapped_wrap "Error analyzing mood: " 'E' rfl (by decide) _,
   errWrapped_wrap "Error detecting crisis: " 'E' rfl (by decide) _,
   errWrapped_wrap "Error summarizing text: " 'E' rfl (by decide) _⟩

end MoodDecode
